import Mathlib

/-!
Verification of the AI-tutor repository: a shallow embedding of the
`TutorGraph` LangGraph workflow (`agents/tutor_graph.py`), the session-level
service functions (`services/tutor_service.py`), the curriculum tables
(`config/settings.py`), the accuracy computation of `models/database.py`,
and the text-to-speech control flow (`services/tts_service.py`).

LLM invocations are modelled by oracle parameters: each node receives the
outcome of its single chain invocation as an `Option` value, `none` standing
for an exception raised inside that invocation (caught by the node's
`try/except`).  Message contents are modelled as plain strings; emoji and
apostrophes of the original message constants are dropped (no claim depends
on the exact text).  Python `float` fields that are stored but never
computed with (scores, confidence) are modelled as rationals.
-/

/-- Structured question content (pydantic model `QuestionContent`). -/
structure QuestionContent where
  question : String
  hint : String
  solution : String
  difficulty_level : Int
  topic_alignment : String
deriving DecidableEq, Repr

/-- Question validation result (pydantic model `ValidationResult`). -/
structure ValidationResult where
  is_valid : Bool
  feedback : String
  improved_question : Option String
  confidence_score : ℚ
deriving DecidableEq, Repr

/-- Answer evaluation result (pydantic model `EvaluationResult`). -/
structure EvaluationResult where
  is_correct : Bool
  feedback : String
  score : ℚ
  suggestions : List String
deriving DecidableEq, Repr

/-- Personalized learning plan (pydantic model `LearningPlan`). -/
structure LearningPlan where
  strengths : List String
  areas_for_improvement : List String
  recommended_activities : List String
  next_steps : List String
  encouragement : String
deriving DecidableEq, Repr

/-- One stored response record: the dict appended by `_evaluate_answer` and
consumed by `generate_learning_plan` (`is_correct` read with default
`False`, here a plain field). -/
structure ResponseRecord where
  question : String
  student_answer : String
  is_correct : Bool
  feedback : String
  score : ℚ
deriving DecidableEq, Repr

/-- State of the tutor graph (pydantic model `TutorState`); message contents
only, since the graph inspects nothing else of a message. -/
structure TutorState where
  messages : List String
  student_info : List (String × String) := []
  current_subject : String := ""
  current_grade : String := ""
  current_topic : String := ""
  current_subtopic : String := ""
  session_type : String := ""
  questions_generated : List QuestionContent := []
  student_responses : List ResponseRecord := []
  current_question_index : Nat := 0
  correct_answers : Nat := 0
  total_questions : Nat := 0
  difficulty_level : Nat := 1
  current_question : Option QuestionContent := none
  evaluation_result : Option EvaluationResult := none
  learning_plan : Option LearningPlan := none
  explanation_content : String := ""
  needs_validation : Bool := false
  session_complete : Bool := false
  error_occurred : Bool := false
  retry_count : Nat := 0
deriving DecidableEq, Repr

/-- Contiguous-sublist test on character lists. -/
def containsSubList (needle : List Char) : List Char → Bool
  | [] => needle.isEmpty
  | c :: rest => needle.isPrefixOf (c :: rest) || containsSubList needle rest

/-- Python `needle in haystack` substring test. -/
def containsSub (haystack needle : String) : Bool :=
  containsSubList needle.toList haystack.toList

/-- Python `str.lower()` (character-wise lowering). -/
def pyLower (s : String) : String :=
  String.mk (s.toList.map Char.toLower)

/-- Python `str.strip()`: whitespace removed from both ends. -/
def pyStrip (s : String) : String :=
  String.mk (((s.toList.dropWhile Char.isWhitespace).reverse.dropWhile
    Char.isWhitespace).reverse)

/-- Replacement of non-overlapping occurrences, left to right, with fuel
(one unit per consumed character suffices for a non-empty pattern). -/
def replaceFuel (needle repl : List Char) : Nat → List Char → List Char
  | 0, l => l
  | _ + 1, [] => []
  | fuel + 1, c :: rest =>
      if needle.isPrefixOf (c :: rest) then
        repl ++ replaceFuel needle repl fuel ((c :: rest).drop needle.length)
      else c :: replaceFuel needle repl fuel rest

/-- Python `str.replace(pat, repl)`. -/
def pyReplace (s pat repl : String) : String :=
  String.mk (replaceFuel pat.toList repl.toList s.toList.length s.toList)

/-- Python division, `none` standing for `ZeroDivisionError`. -/
def pyDiv (a b : ℚ) : Option ℚ :=
  if b = 0 then none else some (a / b)

/-- The accuracy expression of `_generate_learning_plan` (tutor_graph.py
line 435): `correct/total*100 if total > 0 else 0`. -/
def planAccuracy (correct total : Nat) : Option ℚ :=
  if total > 0 then (pyDiv (correct : ℚ) (total : ℚ)).map (fun x => x * 100)
  else some 0

/-- Tags for the single structured LLM invocation each node performs; node
functions return the list of invocations performed during one execution. -/
inductive LLMCall where
  | questionGen
  | questionValidation
  | answerEvaluation
  | topicExplanation
  | learningPlanGen
deriving DecidableEq, Repr

/-- `_route_request`: sets the error flag on an empty message list and is
otherwise the identity (its branches only decide comments); performs no LLM
invocation. -/
def routeRequestT (s : TutorState) : TutorState × List LLMCall :=
  (if s.messages.isEmpty then { s with error_occurred := true } else s, [])

def routeRequest (s : TutorState) : TutorState := (routeRequestT s).1

/-- `_generate_question`: one chain invocation; on success stores and
appends the question and flags validation, on exception sets the error flag
and increments `retry_count`. -/
def generateQuestionT (llm : Option QuestionContent) (s : TutorState) :
    TutorState × List LLMCall :=
  match llm with
  | none =>
      ({ s with error_occurred := true, retry_count := s.retry_count + 1 },
       [LLMCall.questionGen])
  | some q =>
      ({ s with current_question := some q,
                questions_generated := s.questions_generated ++ [q],
                needs_validation := true },
       [LLMCall.questionGen])

def generateQuestion (llm : Option QuestionContent) (s : TutorState) : TutorState :=
  (generateQuestionT llm s).1

/-- `_validate_question`: early error when no current question (no
invocation); otherwise one invocation; on success the improved question is
taken when non-empty (Python truthiness), validation flag cleared, and
`retry_count` incremented below 3 on an invalid question, else reset. -/
def validateQuestionT (llm : Option ValidationResult) (s : TutorState) :
    TutorState × List LLMCall :=
  match s.current_question with
  | none => ({ s with error_occurred := true }, [])
  | some q =>
      match llm with
      | none => ({ s with error_occurred := true }, [LLMCall.questionValidation])
      | some v =>
          let q2 := match v.improved_question with
                    | some iq => if iq = "" then q else { q with question := iq }
                    | none => q
          let base := { s with current_question := some q2, needs_validation := false }
          if v.is_valid = false ∧ s.retry_count < 3 then
            ({ base with retry_count := s.retry_count + 1, current_question := none },
             [LLMCall.questionValidation])
          else
            ({ base with retry_count := 0 }, [LLMCall.questionValidation])

def validateQuestion (llm : Option ValidationResult) (s : TutorState) : TutorState :=
  (validateQuestionT llm s).1

/-- The current-question resolution of `_evaluate_answer`:
`state.current_question or (state.questions_generated[idx] if
state.questions_generated else None)`; an out-of-range index raises
(`Except.error`), caught by the node's handler. -/
def evalResolveQuestion (s : TutorState) : Except Unit (Option QuestionContent) :=
  match s.current_question with
  | some q => Except.ok (some q)
  | none =>
      if s.questions_generated.isEmpty then Except.ok none
      else
        match s.questions_generated[s.current_question_index]? with
        | some q => Except.ok (some q)
        | none => Except.error ()

/-- `_evaluate_answer`: early errors perform no invocation; on success one
invocation, performance counters updated and exactly one response record
appended. -/
def evaluateAnswerT (llm : Option EvaluationResult) (s : TutorState) :
    TutorState × List LLMCall :=
  match s.messages.getLast? with
  | none => ({ s with error_occurred := true }, [])
  | some last =>
      let student_answer := pyStrip (pyReplace last "evaluate:" "")
      match evalResolveQuestion s with
      | Except.error _ => ({ s with error_occurred := true }, [])
      | Except.ok none => ({ s with error_occurred := true }, [])
      | Except.ok (some cq) =>
          match llm with
          | none => ({ s with error_occurred := true }, [LLMCall.answerEvaluation])
          | some ev =>
              ({ s with
                  evaluation_result := some ev,
                  correct_answers :=
                    s.correct_answers + (if ev.is_correct then 1 else 0),
                  total_questions := s.total_questions + 1,
                  student_responses := s.student_responses ++
                    [⟨cq.question, student_answer, ev.is_correct, ev.feedback, ev.score⟩] },
               [LLMCall.answerEvaluation])

def evaluateAnswer (llm : Option EvaluationResult) (s : TutorState) : TutorState :=
  (evaluateAnswerT llm s).1

/-- `_create_explanation`: one invocation; stores the text on success. -/
def createExplanationT (llm : Option String) (s : TutorState) :
    TutorState × List LLMCall :=
  match llm with
  | none => ({ s with error_occurred := true }, [LLMCall.topicExplanation])
  | some e => ({ s with explanation_content := e }, [LLMCall.topicExplanation])

def createExplanation (llm : Option String) (s : TutorState) : TutorState :=
  (createExplanationT llm s).1

/-- `_generate_learning_plan`: computes the accuracy expression (a
`ZeroDivisionError` would be caught, setting the error flag before any
invocation), then one invocation storing the plan on success. -/
def generateLearningPlanT (llm : Option LearningPlan) (s : TutorState) :
    TutorState × List LLMCall :=
  match planAccuracy s.correct_answers s.total_questions with
  | none => ({ s with error_occurred := true }, [])
  | some _ =>
      match llm with
      | none => ({ s with error_occurred := true }, [LLMCall.learningPlanGen])
      | some p => ({ s with learning_plan := some p }, [LLMCall.learningPlanGen])

def generateLearningPlan (llm : Option LearningPlan) (s : TutorState) : TutorState :=
  (generateLearningPlanT llm s).1

/-- The error message chosen by `_handle_error` (emoji and apostrophes of
the source constants dropped). -/
def errMessageFor (session_type : String) : String :=
  if session_type = "practice" then "Oops! Lets try a different practice problem!"
  else if session_type = "assessment" then "Lets continue with your assessment!"
  else if session_type = "explanation" then "Let me try explaining that again!"
  else "Im having trouble right now. Lets try again!"

/-- `_handle_error`: appends a friendly message and clears the error flag;
performs no LLM invocation. -/
def handleErrorT (s : TutorState) : TutorState × List LLMCall :=
  ({ s with messages := s.messages ++ [errMessageFor s.session_type],
            error_occurred := false }, [])

def handleError (s : TutorState) : TutorState := (handleErrorT s).1

/-- `_routing_condition`. -/
def routingCondition (s : TutorState) : String :=
  if s.error_occurred then "error"
  else
    match s.messages.getLast? with
    | none => "error"
    | some last =>
        let lm := pyLower last
        if containsSub lm "evaluate:" then "evaluate_answer"
        else if s.session_type = "explanation" then "create_explanation"
        else if containsSub lm "learning_plan" ∨ s.session_type = "learning_plan" then
          "generate_plan"
        else if s.session_type = "practice" ∨ s.session_type = "assessment" then
          "generate_question"
        else "error"

/-- `_question_condition`. -/
def questionCondition (s : TutorState) : String :=
  if s.error_occurred then "error"
  else if s.needs_validation then "validate"
  else "complete"

/-- `_validation_condition`. -/
def validationCondition (s : TutorState) : String :=
  if s.error_occurred then "error"
  else if 0 < s.retry_count ∧ s.retry_count < 3 then "retry"
  else "approved"

/-- The nodes of the compiled workflow graph. -/
inductive Node where
  | route
  | genQ
  | validateQ
  | evalAnswer
  | explain
  | plan
  | err
deriving DecidableEq, Repr

/-- Label map of the conditional edges out of `route_request`
(`_build_graph`). -/
def routeNext (lbl : String) : Node :=
  if lbl = "generate_question" then Node.genQ
  else if lbl = "evaluate_answer" then Node.evalAnswer
  else if lbl = "create_explanation" then Node.explain
  else if lbl = "generate_plan" then Node.plan
  else Node.err

/-- Label map of the conditional edges out of `generate_question`;
`none` is `END`.  The condition only ever produces the three wired labels;
the default arm is the `error` wire. -/
def questionNext (lbl : String) : Option Node :=
  if lbl = "validate" then some Node.validateQ
  else if lbl = "complete" then none
  else some Node.err

/-- Label map of the conditional edges out of `validate_question`. -/
def validationNext (lbl : String) : Option Node :=
  if lbl = "approved" then none
  else if lbl = "retry" then some Node.genQ
  else some Node.err

/-- Oracle giving the outcome of the LLM invocation attempted at each graph
step (indexed by step number); `none` models an exception inside the
invocation. -/
structure Oracle where
  genQuestion : Nat → Option QuestionContent
  validation : Nat → Option ValidationResult
  answerEval : Nat → Option EvaluationResult
  explanation : Nat → Option String
  learningPlan : Nat → Option LearningPlan

/-- One step of the compiled graph: run the node body, then follow the edge
chosen by its condition function (`none` = `END`).  `evaluate_answer`,
`create_explanation`, `generate_learning_plan` and `handle_error` have
unconditional edges to `END`. -/
def stepGraph (o : Oracle) (k : Nat) : Node → TutorState → Option Node × TutorState
  | Node.route, s =>
      let s2 := routeRequest s
      (some (routeNext (routingCondition s2)), s2)
  | Node.genQ, s =>
      let s2 := generateQuestion (o.genQuestion k) s
      (questionNext (questionCondition s2), s2)
  | Node.validateQ, s =>
      let s2 := validateQuestion (o.validation k) s
      (validationNext (validationCondition s2), s2)
  | Node.evalAnswer, s => (none, evaluateAnswer (o.answerEval k) s)
  | Node.explain, s => (none, createExplanation (o.explanation k) s)
  | Node.plan, s => (none, generateLearningPlan (o.learningPlan k) s)
  | Node.err, s => (none, handleError s)

/-- Fuelled execution of the compiled graph recording the visited nodes
(with their step index); `none` means the fuel ran out. -/
def runTrace (o : Oracle) : Nat → Nat → Node → TutorState →
    Option (TutorState × List (Node × Nat))
  | 0, _, _, _ => none
  | Nat.succ fuel, k, n, s =>
      match stepGraph o k n s with
      | (none, s2) => some (s2, [(n, k)])
      | (some n2, s2) =>
          (runTrace o fuel (k + 1) n2 s2).map (fun r => (r.1, (n, k) :: r.2))

/-- Initial state built by the public `generate_question` method. -/
def generate_question_init (subject grade topic subtopic : String)
    (difficulty : Nat) : TutorState :=
  { messages := ["Generate question for " ++ subtopic],
    current_subject := subject, current_grade := grade,
    current_topic := topic, current_subtopic := subtopic,
    session_type := "practice", difficulty_level := difficulty }

/-- Initial state built by the public `evaluate_answer` method. -/
def evaluate_answer_init (subject grade topic subtopic : String)
    (question : QuestionContent) (student_answer : String) : TutorState :=
  { messages := ["evaluate:" ++ student_answer],
    current_subject := subject, current_grade := grade,
    current_topic := topic, current_subtopic := subtopic,
    current_question := some question, session_type := "evaluation" }

/-- Initial state built by the public `create_explanation` method. -/
def create_explanation_init (subject grade topic subtopic : String) : TutorState :=
  { messages := ["Explain " ++ subtopic],
    current_subject := subject, current_grade := grade,
    current_topic := topic, current_subtopic := subtopic,
    session_type := "explanation" }

/-- Initial state built by the public `generate_learning_plan` method:
`total_questions = len(responses)` and `correct_answers = sum(1 for r in
responses if r.get('is_correct', False))`. -/
def generate_learning_plan_init (subject grade topic subtopic : String)
    (responses : List ResponseRecord) : TutorState :=
  { messages := ["Generate learning_plan"],
    current_subject := subject, current_grade := grade,
    current_topic := topic, current_subtopic := subtopic,
    student_responses := responses,
    total_questions := responses.length,
    correct_answers := responses.countP (fun r => r.is_correct),
    session_type := "learning_plan" }

/-- Association-list lookup with string keys (Python `dict` access in
insertion order; all dicts built here have distinct keys). -/
def lookupStr {α : Type} (k : String) : List (String × α) → Option α
  | [] => none
  | (key, v) :: rest => if k = key then some v else lookupStr k rest

/-- Python `dict` assignment `d[k] = v`: overwrite in place or append. -/
def dictInsert {α : Type} : List (String × α) → String → α → List (String × α)
  | [], k, v => [(k, v)]
  | (key, w) :: rest, k, v =>
      if key = k then (k, v) :: rest else (key, w) :: dictInsert rest k v

/-- One curriculum entry (`topics` list and `description`). -/
structure TopicInfo where
  topics : List String
  description : String
deriving DecidableEq, Repr

/-- `MATH_CURRICULUM` from `config/settings.py`. -/
def MATH_CURRICULUM : List (String × List (String × TopicInfo)) :=
  [("1",
    [("Numbers",
      ⟨["Numbers up to 20", "Addition and Subtraction up to 20",
        "Numbers up to 99", "Simple patterns"],
       "Basic number recognition and simple operations"⟩),
     ("Shapes and Space",
      ⟨["Basic 2D shapes", "Position and direction"],
       "Introduction to shapes and spatial concepts"⟩),
     ("Measurement",
      ⟨["Length - Non standard units", "Weight - Non standard units"],
       "Basic measurement concepts"⟩)]),
   ("2",
    [("Numbers",
      ⟨["Numbers up to 999", "Addition and Subtraction up to 99",
        "Mental Mathematics", "Multiplication - Tables 2,3,4,5"],
       "Extended number operations and mental math"⟩),
     ("Patterns",
      ⟨["Number patterns", "Shape patterns"],
       "Recognition and creation of patterns"⟩),
     ("Measurement",
      ⟨["Length - cm and m", "Weight - kg", "Capacity - L"],
       "Standard units of measurement"⟩),
     ("Data Handling",
      ⟨["Simple data collection", "Pictographs"],
       "Basic data representation"⟩)]),
   ("3",
    [("Numbers",
      ⟨["Numbers up to 9999", "Addition and Subtraction up to 999",
        "Multiplication", "Division", "Fractions"],
       "Advanced number operations and fractions"⟩),
     ("Patterns",
      ⟨["Number patterns", "Shape patterns"],
       "Complex pattern recognition"⟩),
     ("Measurement",
      ⟨["Length - km", "Weight - g", "Time", "Money"],
       "Advanced measurement and practical applications"⟩),
     ("Data Handling",
      ⟨["Pictographs", "Tables and bar graphs"],
       "Data analysis and representation"⟩)])]

/-- `ENGLISH_CURRICULUM` from `config/settings.py`. -/
def ENGLISH_CURRICULUM : List (String × List (String × TopicInfo)) :=
  [("1",
    [("Grammar",
      ⟨["Nouns - Naming Words", "Articles - a, an, the",
        "Pronouns - I, you, he, she, it", "Action Words - Simple Verbs",
        "Describing Words - Basic Adjectives"],
       "Foundation grammar concepts"⟩),
     ("Writing Skills",
      ⟨["Capital Letters and Full Stops", "Simple Sentences",
        "Picture Description", "Story Completion", "Thank You Note"],
       "Basic writing and sentence construction"⟩),
     ("Reading Comprehension",
      ⟨["Short Stories", "Simple Poems", "Picture Stories",
        "Simple Instructions", "Basic Signs and Labels"],
       "Reading understanding and comprehension"⟩)]),
   ("2",
    [("Grammar",
      ⟨["Nouns - Common and Special Names", "Verbs - Present and Past",
        "Adjectives - Comparing Things", "Prepositions - Position Words",
        "Conjunctions - Joining Words"],
       "Extended grammar concepts"⟩),
     ("Writing Skills",
      ⟨["Paragraph Writing", "Story Writing with Pictures",
        "Informal Letters", "Diary Entry", "Message Writing"],
       "Structured writing skills"⟩),
     ("Reading Comprehension",
      ⟨["Longer Stories", "Poems with Rhymes",
        "Instructions and Directions", "Simple Advertisements",
        "Short Dialogues"],
       "Advanced reading comprehension"⟩)]),
   ("3",
    [("Grammar",
      ⟨["Nouns - Gender and Number", "Verbs - Present, Past, Future",
        "Adjectives - Degrees of Comparison", "Adverbs - How, When, Where",
        "Punctuation - Complex Usage"],
       "Advanced grammar and punctuation"⟩),
     ("Writing Skills",
      ⟨["Creative Story Writing", "Formal Letters", "Essay Writing",
        "Invitation Writing", "Descriptive Writing"],
       "Creative and formal writing"⟩),
     ("Reading Comprehension",
      ⟨["Complex Stories", "Poems with Themes", "Newspaper Articles",
        "Informational Texts", "Play Scripts"],
       "Complex text analysis"⟩)])]

/-- `TOPIC_LABELS` from `config/settings.py`. -/
def TOPIC_LABELS : List (String × String) :=
  [("Numbers", "Number Adventures"),
   ("Shapes and Space", "Shape Explorer"),
   ("Measurement", "Measuring Magic"),
   ("Patterns", "Pattern Detective"),
   ("Data Handling", "Data Explorer"),
   ("Grammar", "Grammar Adventures"),
   ("Writing Skills", "Writing Workshop"),
   ("Reading Comprehension", "Reading Quests")]

/-- `ASSESSMENT_CONFIG["questions_per_assessment"]`. -/
def questions_per_assessment : Nat := 5

/-- `TOPIC_LABELS.get(topic, topic)`: friendly label of a topic. -/
def topicLabelOf (topic : String) : String :=
  (lookupStr topic TOPIC_LABELS).getD topic

/-- The curriculum chosen by both curriculum services:
`MATH_CURRICULUM if subject == "Mathematics" else ENGLISH_CURRICULUM`. -/
def curriculumFor (subject : String) :
    List (String × List (String × TopicInfo)) :=
  if subject = "Mathematics" then MATH_CURRICULUM else ENGLISH_CURRICULUM

/-- The result dict of `get_curriculum_topics` for one grade: friendly
label mapped to the subtopic list, in curriculum order. -/
def topicsOfGrade (gradeData : List (String × TopicInfo)) :
    List (String × List String) :=
  gradeData.foldl (fun result p => dictInsert result (topicLabelOf p.1) p.2.topics) []

/-- The reverse lookup plus subtopic extraction of
`get_curriculum_subtopics` for one grade: first curriculum topic whose
friendly label matches, else the empty list. -/
def subtopicsOfGrade (gradeData : List (String × TopicInfo)) (topic : String) :
    List String :=
  match gradeData.find? (fun p => topicLabelOf p.1 = topic) with
  | none => []
  | some p => p.2.topics

/-- `TutorService.get_curriculum_topics`. -/
def get_curriculum_topics (subject grade : String) : List (String × List String) :=
  match lookupStr grade (curriculumFor subject) with
  | none => []
  | some gradeData => topicsOfGrade gradeData

/-- `TutorService.get_curriculum_subtopics`. -/
def get_curriculum_subtopics (subject grade topic : String) : List String :=
  match lookupStr grade (curriculumFor subject) with
  | none => []
  | some gradeData => subtopicsOfGrade gradeData topic

/-- An in-memory session dict as created by `TutorService.create_session`
(timestamp-based id and `start_time` omitted: wall-clock values that no
claim depends on). -/
structure SessionData where
  student_name : String
  grade : String
  subject : String
  topic : String
  subtopic : String
  session_type : String
  questions : List QuestionContent
  responses : List ResponseRecord
  current_difficulty : Nat
  current_question_index : Nat
deriving DecidableEq, Repr

/-- `TutorService.create_session`. -/
def create_session (student_name grade subject topic subtopic session_type : String) :
    SessionData :=
  { student_name := student_name, grade := grade, subject := subject,
    topic := topic, subtopic := subtopic, session_type := session_type,
    questions := [], responses := [], current_difficulty := 1,
    current_question_index := 0 }

/-- `TutorService.submit_practice_answer` on a known session: the
evaluation outcome of the inner `tutor_graph.evaluate_answer` call is the
`evaluation` parameter (`none` = no evaluation obtained).  Returns the
updated session and `(feedback, is_correct, hint)`. -/
def submit_practice_answer (evaluation : Option EvaluationResult)
    (s : SessionData) (answer : String) : SessionData × String × Bool × String :=
  if s.responses.length ≥ s.questions.length then
    (s, "No question to answer!", false, "")
  else
    match s.questions[s.responses.length]? with
    | none => (s, "No question to answer!", false, "")
    | some q =>
        match evaluation with
        | none => (s, "Lets try checking that answer again!", false, "")
        | some ev =>
            let s2 := { s with
              responses := s.responses ++
                [⟨q.question, answer, ev.is_correct, ev.feedback, ev.score⟩],
              current_difficulty :=
                if ev.is_correct then min 5 (s.current_difficulty + 1)
                else max 1 (s.current_difficulty - 1) }
            (s2, ev.feedback, ev.is_correct, q.hint)

/-- `TutorService.submit_assessment_answer` on a known session.  Returns
the updated session and `(feedback, answered, can_continue)`. -/
def submit_assessment_answer (evaluation : Option EvaluationResult)
    (s : SessionData) (answer : String) : SessionData × String × Bool × Bool :=
  if s.responses.length ≥ s.questions.length then
    (s, "No question to answer!", false, false)
  else
    match s.questions[s.responses.length]? with
    | none => (s, "No question to answer!", false, false)
    | some q =>
        match evaluation with
        | none => (s, "Im having trouble evaluating your answer. Lets try again!", false, true)
        | some ev =>
            let s2 := { s with
              responses := s.responses ++
                [⟨q.question, answer, ev.is_correct, ev.feedback, ev.score⟩] }
            (s2, ev.feedback, true,
             decide (s2.responses.length < questions_per_assessment))

/-- `TutorService.get_next_assessment_question` on a known session; `genq`
is the outcome of question generation and `report` the text produced by
`_generate_assessment_report`.  Returns the updated session and
`(text, can_continue)`. -/
def get_next_assessment_question (genq : Option QuestionContent)
    (report : String) (s : SessionData) : SessionData × String × Bool :=
  if s.questions.length ≥ questions_per_assessment then
    (s, report, false)
  else
    match genq with
    | some q =>
        let s2 := { s with questions := s.questions ++ [q] }
        (s2, "Question " ++ toString s2.questions.length ++ " of " ++
             toString questions_per_assessment ++ ": " ++ q.question, true)
    | none => (s, "Im having trouble generating the next question. Lets try again!", false)

/-- `TutorService.start_assessment`: creates the session and appends the
first question when generation succeeds (the session stays stored either
way). -/
def start_assessment (genq : Option QuestionContent)
    (student_name grade subject topic subtopic : String) : SessionData :=
  let s := create_session student_name grade subject topic subtopic "assessment"
  match genq with
  | some q => { s with questions := s.questions ++ [q] }
  | none => s

/-- The accuracy expression of `get_practice_summary`
(tutor_service.py lines 352-354). -/
def practiceSummaryAccuracy (responses : List ResponseRecord) : Option ℚ :=
  let total_questions := responses.length
  let correct_answers := responses.countP (fun r => r.is_correct)
  if total_questions > 0 then
    (pyDiv (correct_answers : ℚ) (total_questions : ℚ)).map (fun x => x * 100)
  else some 0

/-- The accuracy expression of `_generate_assessment_report`
(tutor_service.py lines 424-426). -/
def assessmentReportAccuracy (responses : List ResponseRecord) : Option ℚ :=
  let total_questions := responses.length
  let correct_answers := responses.countP (fun r => r.is_correct)
  if total_questions > 0 then
    (pyDiv (correct_answers : ℚ) (total_questions : ℚ)).map (fun x => x * 100)
  else some 0

/-- One `LearningSession` row as read by `get_student_progress`. -/
structure SessionRow where
  questions_attempted : Nat
  questions_correct : Nat
deriving DecidableEq, Repr

/-- The accuracy expression of `get_student_progress`
(models/database.py lines 205-207). -/
def studentProgressAccuracy (recent_sessions : List SessionRow) : Option ℚ :=
  let total_questions : Nat := (recent_sessions.map (fun s => s.questions_attempted)).sum
  let total_correct : Nat := (recent_sessions.map (fun s => s.questions_correct)).sum
  if total_questions > 0 then
    (pyDiv (total_correct : ℚ) (total_questions : ℚ)).map (fun x => x * 100)
  else some 0

/-- Effect oracle for `TTSService.text_to_speech`: whether the cached file
still exists on disk, and whether speech generation (gTTS call, save,
optional speed processing, rename) succeeds. -/
structure TTSOracle where
  cachedFileExists : String → Bool
  generationOk : Bool

/-- `TTSService.generate_cache_key`: the first 12 hex digits of the MD5 of
the cleaned text; `clean` and `md5hex` abstract `clean_text_for_speech`
(regex pipeline) and `hashlib.md5(...).hexdigest()`. -/
def generate_cache_key (clean md5hex : String → String) (text : String) : String :=
  (md5hex (clean text)).take 12

/-- `TTSService.text_to_speech`: every failure path of the source is
wrapped in `try/except` returning `None`; here the effect oracle decides
those paths, so the function is total.  Returns the result and the updated
cache. -/
def text_to_speech (clean md5hex : String → String) (tempDir : String)
    (o : TTSOracle) (cache : List (String × String)) (text : String) :
    Option String × List (String × String) :=
  if text = "" ∨ pyStrip text = "" then (none, cache)
  else
    let cleaned_text := clean text
    if cleaned_text = "" then (none, cache)
    else
      let cache_key := generate_cache_key clean md5hex cleaned_text
      let cachedHit :=
        match lookupStr cache_key cache with
        | some p => if o.cachedFileExists p then some p else none
        | none => none
      match cachedHit with
      | some p => (some p, cache)
      | none =>
          if o.generationOk then
            let file_path := tempDir ++ "/speech_" ++ cache_key ++ ".mp3"
            (some file_path, dictInsert cache cache_key file_path)
          else (none, cache)

/-- Termination measure for the graph: decreases along every edge. -/
def nodeMeasure : Node → TutorState → Nat
  | Node.route, _ => 10
  | Node.genQ, s => 2 * (3 - s.retry_count) + 3
  | Node.validateQ, s => 2 * (3 - s.retry_count) + 2
  | _, _ => 1

lemma nodeMeasure_pos (n : Node) (s : TutorState) : 0 < nodeMeasure n s := by
  cases n <;> simp [nodeMeasure]

lemma optionMap_isSome {α β : Type} (f : α → β) (x : Option α) :
    (x.map f).isSome = x.isSome := by
  cases x <;> rfl

lemma runTrace_succ_step (o : Oracle) (fuel k : Nat) (n : Node) (s : TutorState) :
    runTrace o (fuel + 1) k n s =
      match stepGraph o k n s with
      | (none, s2) => some (s2, [(n, k)])
      | (some n2, s2) =>
          (runTrace o fuel (k + 1) n2 s2).map (fun r => (r.1, (n, k) :: r.2)) := rfl

lemma routeRequest_retry (s : TutorState) :
    (routeRequest s).retry_count = s.retry_count := by
  by_cases h : s.messages.isEmpty <;> simp [routeRequest, routeRequestT, h]

lemma routeNext_measure (lbl : String) (s : TutorState) :
    nodeMeasure (routeNext lbl) s ≤ 9 := by
  unfold routeNext
  split_ifs <;> (simp [nodeMeasure]; try omega)

lemma questionNext_error : questionNext "error" = some Node.err := by decide

lemma questionNext_validate : questionNext "validate" = some Node.validateQ := by decide

lemma validationNext_error : validationNext "error" = some Node.err := by decide

lemma validationNext_retry : validationNext "retry" = some Node.genQ := by decide

lemma validationNext_approved : validationNext "approved" = none := by decide

/-- With enough fuel for the measure, a run from any node completes. -/
lemma runTrace_isSome (o : Oracle) :
    ∀ fuel k n s, nodeMeasure n s ≤ fuel → (runTrace o fuel k n s).isSome = true := by
  intro fuel
  induction fuel with
  | zero =>
      intro k n s h
      have := nodeMeasure_pos n s
      omega
  | succ fuel ih =>
      intro k n s h
      cases n with
      | route =>
          rw [runTrace_succ_step]
          have hstep : stepGraph o k Node.route s =
              (some (routeNext (routingCondition (routeRequest s))), routeRequest s) := rfl
          rw [hstep]
          rw [optionMap_isSome]
          apply ih
          have h9 := routeNext_measure (routingCondition (routeRequest s)) (routeRequest s)
          have h10 : nodeMeasure Node.route s = 10 := rfl
          omega
      | genQ =>
          rw [runTrace_succ_step]
          have hstep : stepGraph o k Node.genQ s =
              (questionNext (questionCondition (generateQuestion (o.genQuestion k) s)),
               generateQuestion (o.genQuestion k) s) := rfl
          rw [hstep]
          have hm : nodeMeasure Node.genQ s = 2 * (3 - s.retry_count) + 3 := rfl
          cases hg : o.genQuestion k with
          | none =>
              have hs2 : generateQuestion none s =
                  { s with error_occurred := true, retry_count := s.retry_count + 1 } := rfl
              have hc : questionCondition (generateQuestion none s) = "error" := by
                rw [hs2]; simp [questionCondition]
              rw [hc, questionNext_error]
              rw [optionMap_isSome]
              apply ih
              have : nodeMeasure Node.err (generateQuestion none s) = 1 := rfl
              omega
          | some q =>
              have hs2 : generateQuestion (some q) s =
                  { s with current_question := some q,
                           questions_generated := s.questions_generated ++ [q],
                           needs_validation := true } := rfl
              by_cases he : s.error_occurred
              · have hc : questionCondition (generateQuestion (some q) s) = "error" := by
                  rw [hs2]; simp [questionCondition, he]
                rw [hc, questionNext_error]
                rw [optionMap_isSome]
                apply ih
                have : nodeMeasure Node.err (generateQuestion (some q) s) = 1 := rfl
                omega
              · have hc : questionCondition (generateQuestion (some q) s) = "validate" := by
                  rw [hs2]; simp [questionCondition, he]
                rw [hc, questionNext_validate]
                rw [optionMap_isSome]
                apply ih
                have : nodeMeasure Node.validateQ (generateQuestion (some q) s) =
                    2 * (3 - s.retry_count) + 2 := by rw [hs2]; rfl
                omega
      | validateQ =>
          rw [runTrace_succ_step]
          have hstep : stepGraph o k Node.validateQ s =
              (validationNext (validationCondition (validateQuestion (o.validation k) s)),
               validateQuestion (o.validation k) s) := rfl
          rw [hstep]
          have hm : nodeMeasure Node.validateQ s = 2 * (3 - s.retry_count) + 2 := rfl
          have herr : ∀ s3 : TutorState, validationCondition s3 = "error" →
              (validationNext (validationCondition s3)).isSome = true →
              nodeMeasure Node.err s3 ≤ fuel → True := fun _ _ _ _ => trivial
          cases hcq : s.current_question with
          | none =>
              have hs2 : validateQuestion (o.validation k) s = { s with error_occurred := true } := by
                cases hv : o.validation k <;>
                  simp [validateQuestion, validateQuestionT, hcq]
              have hc : validationCondition (validateQuestion (o.validation k) s) = "error" := by
                rw [hs2]; simp [validationCondition]
              rw [hc, validationNext_error]
              rw [optionMap_isSome]
              apply ih
              have : nodeMeasure Node.err (validateQuestion (o.validation k) s) = 1 := rfl
              omega
          | some q =>
              cases hv : o.validation k with
              | none =>
                  have hs2 : validateQuestion none s = { s with error_occurred := true } := by
                    simp [validateQuestion, validateQuestionT, hcq]
                  have hc : validationCondition (validateQuestion none s) = "error" := by
                    rw [hs2]; simp [validationCondition]
                  rw [hc, validationNext_error]
                  rw [optionMap_isSome]
                  apply ih
                  have : nodeMeasure Node.err (validateQuestion none s) = 1 := rfl
                  omega
              | some v =>
                  by_cases hbr : v.is_valid = false ∧ s.retry_count < 3
                  · have hs2 : (validateQuestion (some v) s).retry_count = s.retry_count + 1 ∧
                        (validateQuestion (some v) s).error_occurred = s.error_occurred := by
                      simp [validateQuestion, validateQuestionT, hcq, hbr]
                    by_cases he : s.error_occurred
                    · have hc : validationCondition (validateQuestion (some v) s) = "error" := by
                        simp [validationCondition, hs2.2, he]
                      rw [hc, validationNext_error]
                      rw [optionMap_isSome]
                      apply ih
                      have : nodeMeasure Node.err (validateQuestion (some v) s) = 1 := rfl
                      omega
                    · by_cases hr3 : s.retry_count + 1 < 3
                      · have hc : validationCondition (validateQuestion (some v) s) = "retry" := by
                          simp [validationCondition, hs2.2, hs2.1, he, hr3]
                        rw [hc, validationNext_retry]
                        rw [optionMap_isSome]
                        apply ih
                        have : nodeMeasure Node.genQ (validateQuestion (some v) s) =
                            2 * (3 - (s.retry_count + 1)) + 3 := by
                          simp [nodeMeasure, hs2.1]
                        omega
                      · have hc : validationCondition (validateQuestion (some v) s) = "approved" := by
                          simp [validationCondition, hs2.2, hs2.1, he, hr3]
                        rw [hc, validationNext_approved]
                        simp
                  · have hs2 : (validateQuestion (some v) s).retry_count = 0 ∧
                        (validateQuestion (some v) s).error_occurred = s.error_occurred := by
                      simp [validateQuestion, validateQuestionT, hcq, hbr]
                    by_cases he : s.error_occurred
                    · have hc : validationCondition (validateQuestion (some v) s) = "error" := by
                        simp [validationCondition, hs2.2, he]
                      rw [hc, validationNext_error]
                      rw [optionMap_isSome]
                      apply ih
                      have : nodeMeasure Node.err (validateQuestion (some v) s) = 1 := rfl
                      omega
                    · have hc : validationCondition (validateQuestion (some v) s) = "approved" := by
                        simp [validationCondition, hs2.2, hs2.1, he]
                      rw [hc, validationNext_approved]
                      simp
      | evalAnswer => rw [runTrace_succ_step]; exact rfl
      | explain => rw [runTrace_succ_step]; exact rfl
      | plan => rw [runTrace_succ_step]; exact rfl
      | err => rw [runTrace_succ_step]; exact rfl

/-- C1: For every initial state, an invocation of the compiled TutorGraph
workflow terminates: fuel 10 (the maximum of the termination measure, which
bounds the generate/validate retry cycle) always suffices for the run from
the entry node to reach END, `_validation_condition` returns "retry" only
when `0 < retry_count < 3`, and `_validate_question` increments
`retry_count` on a failed validation only while `retry_count < 3` (and
resets it to 0 otherwise), so after at most 3 validation failures the
condition returns "approved". -/
theorem tutorGraph_invocation_terminates :
    (∀ (o : Oracle) (s : TutorState), (runTrace o 10 0 Node.route s).isSome = true)
    ∧ (∀ s : TutorState, validationCondition s = "retry" →
        0 < s.retry_count ∧ s.retry_count < 3)
    ∧ (∀ (v : ValidationResult) (s : TutorState) (q : QuestionContent),
        s.current_question = some q → v.is_valid = false → s.retry_count < 3 →
        (validateQuestion (some v) s).retry_count = s.retry_count + 1)
    ∧ (∀ (v : ValidationResult) (s : TutorState) (q : QuestionContent),
        s.current_question = some q →
        ¬ (v.is_valid = false ∧ s.retry_count < 3) →
        (validateQuestion (some v) s).retry_count = 0) := by
  refine ⟨fun o s => runTrace_isSome o 10 0 Node.route s (le_refl 10), ?_, ?_, ?_⟩
  · intro s h
    unfold validationCondition at h
    by_cases he : s.error_occurred
    · simp [he] at h
    · by_cases hr : 0 < s.retry_count ∧ s.retry_count < 3
      · exact hr
      · simp [he, hr] at h
  · intro v s q hq hv hr
    simp [validateQuestion, validateQuestionT, hq, hv, hr]
  · intro v s q hq hbr
    simp only [validateQuestion, validateQuestionT, hq]
    rw [if_neg hbr]

/-- A sample question used in concrete runs. -/
def demoQuestion : QuestionContent :=
  ⟨"What is 7 + 5?", "Count up from 7.", "7 + 5 = 12.", 1, "aligned"⟩

/-- A sample passing validation result. -/
def demoValidation : ValidationResult := ⟨true, "Good question.", none, 1⟩

/-- A sample failing validation result. -/
def demoValidationFail : ValidationResult := ⟨false, "Too hard.", none, 1⟩

/-- A sample correct-answer evaluation. -/
def demoEvaluation : EvaluationResult := ⟨true, "Well done.", 1, []⟩

/-- A sample learning plan. -/
def demoPlan : LearningPlan := ⟨["addition"], ["subtraction"], ["drills"], ["next"], "Keep going!"⟩

/-- An oracle whose every invocation succeeds. -/
def demoOracle : Oracle :=
  ⟨fun _ => some demoQuestion, fun _ => some demoValidation,
   fun _ => some demoEvaluation, fun _ => some "An explanation.",
   fun _ => some demoPlan⟩

/-- A state with one failed validation recorded. -/
def demoRetryState : TutorState :=
  { messages := ["Generate question for Fractions"], session_type := "practice",
    retry_count := 1 }

/-- A state holding a current question awaiting validation. -/
def demoValidatingState : TutorState :=
  { messages := ["Generate question for Fractions"], session_type := "practice",
    current_question := some demoQuestion, needs_validation := true }

theorem tutorGraph_invocation_terminates_witness :
    (0 < demoRetryState.retry_count ∧ demoRetryState.retry_count < 3)
    ∧ (validateQuestion (some demoValidationFail) demoValidatingState).retry_count = 0 + 1
    ∧ (validateQuestion (some demoValidation) demoValidatingState).retry_count = 0 :=
  ⟨tutorGraph_invocation_terminates.2.1 demoRetryState (by decide),
   tutorGraph_invocation_terminates.2.2.1 demoValidationFail demoValidatingState
     demoQuestion rfl rfl (by decide),
   tutorGraph_invocation_terminates.2.2.2 demoValidation demoValidatingState
     demoQuestion rfl (by decide)⟩
lemma runTrace_step_none (o : Oracle) (fuel k : Nat) (n : Node) (s s2 : TutorState)
    (hsg : stepGraph o k n s = (none, s2)) :
    runTrace o (fuel + 1) k n s = some (s2, [(n, k)]) := by
  rw [runTrace_succ_step, hsg]

lemma runTrace_step_some (o : Oracle) (fuel k : Nat) (n n2 : Node) (s s2 : TutorState)
    (hsg : stepGraph o k n s = (some n2, s2)) :
    runTrace o (fuel + 1) k n s =
      (runTrace o fuel (k + 1) n2 s2).map (fun r => (r.1, (n, k) :: r.2)) := by
  rw [runTrace_succ_step, hsg]

/-- Trace property: every visited `generate_question` step whose LLM
invocation succeeded is immediately followed by `validate_question`. -/
def GoodT (o : Oracle) : List (Node × Nat) → Prop
  | [] => True
  | (n, k) :: rest =>
      ((n = Node.genQ ∧ (o.genQuestion k).isSome = true) →
        ∃ k2, rest.head? = some (Node.validateQ, k2))
      ∧ GoodT o rest

lemma runTrace_head (o : Oracle) (fuel k : Nat) (n : Node) (s : TutorState)
    (res : TutorState) (tr : List (Node × Nat))
    (h : runTrace o fuel k n s = some (res, tr)) : tr.head? = some (n, k) := by
  cases fuel with
  | zero => simp [runTrace] at h
  | succ fuel =>
      rcases hsg : stepGraph o k n s with ⟨on2, s2⟩
      cases on2 with
      | none =>
          rw [runTrace_step_none o fuel k n s s2 hsg] at h
          simp only [Option.some_inj, Prod.mk.injEq] at h
          rw [← h.2]
          rfl
      | some n2 =>
          rw [runTrace_step_some o fuel k n n2 s s2 hsg] at h
          cases hrt : runTrace o fuel (k + 1) n2 s2 with
          | none => rw [hrt] at h; simp at h
          | some r =>
              rw [hrt, Option.map_some'] at h
              simp only [Option.some_inj, Prod.mk.injEq] at h
              rw [← h.2]
              rfl

/-- A successful question generation in a non-error state is always
followed by the validation node. -/
lemma genQ_success_next (o : Oracle) (k : Nat) (s : TutorState)
    (hg : (o.genQuestion k).isSome = true) (he : s.error_occurred = false) :
    stepGraph o k Node.genQ s =
      (some Node.validateQ, generateQuestion (o.genQuestion k) s) := by
  rcases hq : o.genQuestion k with _ | q
  · rw [hq] at hg; simp at hg
  · have hs2 : generateQuestion (some q) s =
        { s with current_question := some q,
                 questions_generated := s.questions_generated ++ [q],
                 needs_validation := true } := rfl
    have hc : questionCondition (generateQuestion (some q) s) = "validate" := by
      rw [hs2]; simp [questionCondition, he]
    show (questionNext (questionCondition (generateQuestion (o.genQuestion k) s)),
          generateQuestion (o.genQuestion k) s) = _
    rw [hq, hc, questionNext_validate]

lemma routeNext_eq_genQ (lbl : String) (h : routeNext lbl = Node.genQ) :
    lbl = "generate_question" := by
  by_cases h1 : lbl = "generate_question"
  · exact h1
  · exfalso
    unfold routeNext at h
    rw [if_neg h1] at h
    by_cases h2 : lbl = "evaluate_answer"
    · rw [if_pos h2] at h; exact absurd h (by decide)
    · rw [if_neg h2] at h
      by_cases h3 : lbl = "create_explanation"
      · rw [if_pos h3] at h; exact absurd h (by decide)
      · rw [if_neg h3] at h
        by_cases h4 : lbl = "generate_plan"
        · rw [if_pos h4] at h; exact absurd h (by decide)
        · rw [if_neg h4] at h; exact absurd h (by decide)

lemma validationNext_eq_genQ (lbl : String) (h : validationNext lbl = some Node.genQ) :
    lbl = "retry" := by
  by_cases h2 : lbl = "retry"
  · exact h2
  · exfalso
    unfold validationNext at h
    by_cases h1 : lbl = "approved"
    · rw [if_pos h1] at h; exact absurd h (by decide)
    · rw [if_neg h1, if_neg h2] at h; exact absurd h (by decide)

lemma questionNext_ne_genQ (lbl : String) : questionNext lbl ≠ some Node.genQ := by
  unfold questionNext
  split_ifs <;> decide

lemma routingCondition_genQ (s : TutorState)
    (h : routingCondition s = "generate_question") : s.error_occurred = false := by
  by_cases he : s.error_occurred
  · unfold routingCondition at h
    rw [if_pos he] at h
    exact absurd h (by decide)
  · simpa using he

lemma validationCondition_retry (s : TutorState)
    (h : validationCondition s = "retry") : s.error_occurred = false := by
  by_cases he : s.error_occurred
  · unfold validationCondition at h
    rw [if_pos he] at h
    exact absurd h (by decide)
  · simpa using he

/-- Invariant propagation: whenever a step enters `generate_question`, the
entered state has a clear error flag. -/
lemma step_into_genQ (o : Oracle) (k : Nat) (n : Node) (s : TutorState)
    (n2 : Node) (s2 : TutorState) (hsg : stepGraph o k n s = (some n2, s2))
    (hn2 : n2 = Node.genQ) : s2.error_occurred = false := by
  subst hn2
  cases n with
  | route =>
      have hpair : (some (routeNext (routingCondition (routeRequest s))), routeRequest s) =
          ((some Node.genQ : Option Node), s2) := hsg
      have h1 : routeNext (routingCondition (routeRequest s)) = Node.genQ := by
        have := congrArg Prod.fst hpair
        simpa using this
      have h2 : routeRequest s = s2 := congrArg Prod.snd hpair
      rw [← h2]
      exact routingCondition_genQ _ (routeNext_eq_genQ _ h1)
  | genQ =>
      have hpair : (questionNext (questionCondition (generateQuestion (o.genQuestion k) s)),
          generateQuestion (o.genQuestion k) s) = ((some Node.genQ : Option Node), s2) := hsg
      have h1 := congrArg Prod.fst hpair
      exact absurd h1 (questionNext_ne_genQ _)
  | validateQ =>
      have hpair : (validationNext (validationCondition (validateQuestion (o.validation k) s)),
          validateQuestion (o.validation k) s) = ((some Node.genQ : Option Node), s2) := hsg
      have h1 : validationNext (validationCondition (validateQuestion (o.validation k) s)) =
          some Node.genQ := congrArg Prod.fst hpair
      have h2 : validateQuestion (o.validation k) s = s2 := congrArg Prod.snd hpair
      rw [← h2]
      exact validationCondition_retry _ (validationNext_eq_genQ _ h1)
  | evalAnswer => cases hsg
  | explain => cases hsg
  | plan => cases hsg
  | err => cases hsg

/-- Every completed run whose start node satisfies the error invariant has
a good trace. -/
lemma runTrace_goodT (o : Oracle) :
    ∀ fuel k n s res tr, runTrace o fuel k n s = some (res, tr) →
      (n = Node.genQ → s.error_occurred = false) → GoodT o tr := by
  intro fuel
  induction fuel with
  | zero => intro k n s res tr h _; simp [runTrace] at h
  | succ fuel ih =>
      intro k n s res tr hrun hinv
      rcases hsg : stepGraph o k n s with ⟨on2, s2⟩
      cases on2 with
      | none =>
          rw [runTrace_step_none o fuel k n s s2 hsg] at hrun
          simp only [Option.some_inj, Prod.mk.injEq] at hrun
          rw [← hrun.2]
          refine ⟨?_, trivial⟩
          rintro ⟨hn, hg⟩
          subst hn
          have he := hinv rfl
          rw [genQ_success_next o k s hg he] at hsg
          cases hsg
      | some n2 =>
          rw [runTrace_step_some o fuel k n n2 s s2 hsg] at hrun
          cases hrt : runTrace o fuel (k + 1) n2 s2 with
          | none => rw [hrt] at hrun; simp at hrun
          | some r =>
              rw [hrt, Option.map_some'] at hrun
              simp only [Option.some_inj, Prod.mk.injEq] at hrun
              rw [← hrun.2]
              refine ⟨?_, ?_⟩
              · rintro ⟨hn, hg⟩
                subst hn
                have he := hinv rfl
                rw [genQ_success_next o k s hg he] at hsg
                have hn2 : n2 = Node.validateQ := by
                  have := congrArg Prod.fst hsg
                  simpa using this.symm
                refine ⟨k + 1, ?_⟩
                rw [hn2] at hrt
                exact runTrace_head o fuel (k + 1) Node.validateQ s2 r.1 r.2
                  (by rw [hrt])
              · exact ih (k + 1) n2 s2 r.1 r.2 (by rw [hrt])
                  (fun hn2 => step_into_genQ o k n s n2 s2 hsg hn2)

/-- Index form of `GoodT`. -/
lemma goodT_index (o : Oracle) :
    ∀ tr, GoodT o tr → ∀ i k, tr[i]? = some (Node.genQ, k) →
      (o.genQuestion k).isSome = true →
      ∃ k2, tr[i + 1]? = some (Node.validateQ, k2) := by
  intro tr
  induction tr with
  | nil => intro _ i k h; simp at h
  | cons hd rest ih =>
      rcases hd with ⟨n0, k0⟩
      rintro ⟨hhd, hrest⟩ i k hi hg
      cases i with
      | zero =>
          simp only [List.getElem?_cons_zero, Option.some_inj, Prod.mk.injEq] at hi
          obtain ⟨hn0, hk0⟩ := hi
          subst hn0
          subst hk0
          obtain ⟨k2, hk2⟩ := hhd ⟨rfl, hg⟩
          refine ⟨k2, ?_⟩
          cases rest with
          | nil => simp at hk2
          | cons r rs => simpa using hk2
      | succ j =>
          simp only [List.getElem?_cons_succ] at hi
          obtain ⟨k2, hk2⟩ := ih hrest j k hi hg
          exact ⟨k2, by simpa using hk2⟩

/-- C2: Every freshly generated question is validated before the workflow
completes.  In every completed run of the compiled graph from the entry
node, a `generate_question` step whose LLM invocation succeeded is
immediately followed by the `validate_question` node (so validation
executes before END is reached); a successful `_generate_question` always
sets `needs_validation`, and `_question_condition` then routes to
"validate", never directly to "complete". -/
theorem generated_question_always_validated :
    (∀ (o : Oracle) (s : TutorState) (fuel : Nat) (res : TutorState)
        (tr : List (Node × Nat)) (i k : Nat),
      runTrace o fuel 0 Node.route s = some (res, tr) →
      tr[i]? = some (Node.genQ, k) →
      (o.genQuestion k).isSome = true →
      ∃ k2, tr[i + 1]? = some (Node.validateQ, k2))
    ∧ (∀ (q : QuestionContent) (s : TutorState),
        (generateQuestion (some q) s).needs_validation = true)
    ∧ (∀ (q : QuestionContent) (s : TutorState), s.error_occurred = false →
        questionCondition (generateQuestion (some q) s) = "validate") := by
  refine ⟨?_, ?_, ?_⟩
  · intro o s fuel res tr i k hrun hi hg
    have hgood : GoodT o tr :=
      runTrace_goodT o fuel 0 Node.route s res tr hrun (fun h => nomatch h)
    exact goodT_index o tr hgood i k hi hg
  · intro q s; rfl
  · intro q s he
    simp [questionCondition, generateQuestion, generateQuestionT, he]

/-- The initial state of a public `generate_question` call on grade-1
number facts. -/
def demoPracticeState : TutorState :=
  generate_question_init "Mathematics" "1" "Numbers" "Numbers up to 20" 1

/-- The completed demo run (entry node, all invocations succeeding). -/
def demoRunPair : TutorState × List (Node × Nat) :=
  (runTrace demoOracle 10 0 Node.route demoPracticeState).getD ({ messages := [] }, [])

theorem generated_question_always_validated_witness :
    ∃ k2, demoRunPair.2[1 + 1]? = some (Node.validateQ, k2) :=
  generated_question_always_validated.1 demoOracle demoPracticeState 10
    demoRunPair.1 demoRunPair.2 1 1 (by decide) (by decide) (by decide)

/-- The routing map as the specification words it: "error" if the error
flag is set or the message list is empty; otherwise "evaluate_answer" if
the lower-cased last message contains "evaluate:"; otherwise
"create_explanation" if the session type is "explanation"; otherwise
"generate_plan" if the (lower-cased) last message contains "learning_plan"
or the session type is "learning_plan"; otherwise "generate_question" if
the session type is "practice" or "assessment"; otherwise "error". -/
def routingSpec (s : TutorState) : String :=
  if s.error_occurred = true ∨ s.messages = [] then "error"
  else
    let lm := pyLower (s.messages.getLast?.getD "")
    if containsSub lm "evaluate:" then "evaluate_answer"
    else if s.session_type = "explanation" then "create_explanation"
    else if containsSub lm "learning_plan" ∨ s.session_type = "learning_plan" then
      "generate_plan"
    else if s.session_type = "practice" ∨ s.session_type = "assessment" then
      "generate_question"
    else "error"

lemma getLast?_eq_none_iff {α : Type} (l : List α) : l.getLast? = none ↔ l = [] := by
  cases l with
  | nil => simp
  | cons a t => simp [List.getLast?_eq_getLast]

/-- C3: `_routing_condition` maps every state to exactly one of the five
labels, with exactly the precedence the specification describes
(`routingSpec`). -/
theorem routing_condition_total_and_faithful :
    ∀ s : TutorState, routingCondition s = routingSpec s
      ∧ routingCondition s ∈
          ["error", "evaluate_answer", "create_explanation",
           "generate_plan", "generate_question"] := by
  intro s
  have hmain : routingCondition s = routingSpec s := by
    by_cases he : s.error_occurred
    · simp [routingCondition, routingSpec, he]
    · cases hm : s.messages.getLast? with
      | none =>
          have hnil : s.messages = [] := (getLast?_eq_none_iff s.messages).mp hm
          simp [routingCondition, routingSpec, he, hm, hnil]
      | some last =>
          have hne : s.messages ≠ [] := by
            intro hnil
            rw [hnil] at hm
            simp at hm
          simp [routingCondition, routingSpec, he, hm, hne]
  refine ⟨hmain, ?_⟩
  rw [hmain]
  simp only [routingSpec]
  by_cases h1 : s.error_occurred = true ∨ s.messages = []
  · simp [h1]
  · rw [if_neg h1]
    by_cases h2 : containsSub (pyLower (s.messages.getLast?.getD "")) "evaluate:" = true
    · simp [h2]
    · rw [if_neg h2]
      by_cases h3 : s.session_type = "explanation"
      · simp [h3]
      · rw [if_neg h3]
        by_cases h4 : containsSub (pyLower (s.messages.getLast?.getD "")) "learning_plan" = true
            ∨ s.session_type = "learning_plan"
        · simp [h4]
        · rw [if_neg h4]
          by_cases h5 : s.session_type = "practice" ∨ s.session_type = "assessment"
          · simp [h5]
          · rw [if_neg h5]
            simp

lemma planAccuracy_isSome (correct total : Nat) :
    (planAccuracy correct total).isSome = true := by
  unfold planAccuracy pyDiv
  by_cases ht : total > 0
  · have : ((total : ℚ) = 0) = False := by
      simp only [Nat.cast_eq_zero, eq_iff_iff, iff_false]
      omega
    simp [ht, this]
  · simp [ht]

/-- A state with an empty message list (as the public API never builds,
but the graph accepts). -/
def emptyMsgState : TutorState := { messages := [] }

/-- C4 counterexample: executing the LLM-backed node `_evaluate_answer` on
a state with no messages performs zero prompt renders, LLM invocations and
parses, not exactly one: its guard returns before the chain is built. -/
theorem llm_single_call_counterexample :
    ¬ ((evaluateAnswerT (some demoEvaluation) emptyMsgState).2.length = 1) := by
  decide

/-- C4 amended: each LLM-backed node performs at most one prompt render,
LLM invocation and structured-output parse per execution;
`_generate_question`, `_create_explanation` and `_generate_learning_plan`
perform exactly one on every execution, `_validate_question` exactly one
unless `current_question` is unset, `_evaluate_answer` exactly one unless
its message/question guards fail (zero in those guard cases), and the entry
node `_route_request` (like `_handle_error`) performs none. -/
theorem llm_nodes_single_call :
    (∀ (llm : Option QuestionContent) (s : TutorState),
        (generateQuestionT llm s).2 = [LLMCall.questionGen])
    ∧ (∀ (llm : Option String) (s : TutorState),
        (createExplanationT llm s).2 = [LLMCall.topicExplanation])
    ∧ (∀ (llm : Option LearningPlan) (s : TutorState),
        (generateLearningPlanT llm s).2 = [LLMCall.learningPlanGen])
    ∧ (∀ (llm : Option ValidationResult) (s : TutorState) (q : QuestionContent),
        s.current_question = some q →
        (validateQuestionT llm s).2 = [LLMCall.questionValidation])
    ∧ (∀ (llm : Option ValidationResult) (s : TutorState),
        (validateQuestionT llm s).2.length ≤ 1)
    ∧ (∀ (llm : Option EvaluationResult) (s : TutorState) (last : String)
         (q : QuestionContent), s.messages.getLast? = some last →
        evalResolveQuestion s = Except.ok (some q) →
        (evaluateAnswerT llm s).2 = [LLMCall.answerEvaluation])
    ∧ (∀ (llm : Option EvaluationResult) (s : TutorState),
        (evaluateAnswerT llm s).2.length ≤ 1)
    ∧ (∀ s : TutorState, (routeRequestT s).2 = [])
    ∧ (∀ s : TutorState, (handleErrorT s).2 = []) := by
  refine ⟨?_, ?_, ?_, ?_, ?_, ?_, ?_, ?_, ?_⟩
  · intro llm s; cases llm <;> rfl
  · intro llm s; cases llm <;> rfl
  · intro llm s
    have h := planAccuracy_isSome s.correct_answers s.total_questions
    cases hp : planAccuracy s.correct_answers s.total_questions with
    | none => rw [hp] at h; simp at h
    | some a =>
        cases llm <;> simp [generateLearningPlanT, hp]
  · intro llm s q hq
    cases llm with
    | none => simp [validateQuestionT, hq]
    | some v =>
        simp only [validateQuestionT, hq]
        by_cases hbr : v.is_valid = false ∧ s.retry_count < 3
        · rw [if_pos hbr]
        · rw [if_neg hbr]
  · intro llm s
    cases hq : s.current_question with
    | none => simp [validateQuestionT, hq]
    | some q =>
        cases llm with
        | none => simp [validateQuestionT, hq]
        | some v =>
            simp only [validateQuestionT, hq]
            by_cases hbr : v.is_valid = false ∧ s.retry_count < 3
            · rw [if_pos hbr]; simp
            · rw [if_neg hbr]; simp
  · intro llm s last q hlast hres
    cases llm <;> simp [evaluateAnswerT, hlast, hres]
  · intro llm s
    cases hlast : s.messages.getLast? with
    | none => simp [evaluateAnswerT, hlast]
    | some last =>
        cases hres : evalResolveQuestion s with
        | error e => simp [evaluateAnswerT, hlast, hres]
        | ok oq =>
            cases oq with
            | none => simp [evaluateAnswerT, hlast, hres]
            | some q => cases llm <;> simp [evaluateAnswerT, hlast, hres]
  · intro s; rfl
  · intro s; rfl

theorem llm_nodes_single_call_witness :
    (validateQuestionT (some demoValidation) demoValidatingState).2 =
        [LLMCall.questionValidation]
    ∧ (evaluateAnswerT (some demoEvaluation)
        (evaluate_answer_init "Mathematics" "1" "Numbers" "Numbers up to 20"
          demoQuestion "12")).2 = [LLMCall.answerEvaluation] :=
  ⟨llm_nodes_single_call.2.2.2.1 (some demoValidation) demoValidatingState
      demoQuestion rfl,
   llm_nodes_single_call.2.2.2.2.2.1 (some demoEvaluation)
      (evaluate_answer_init "Mathematics" "1" "Numbers" "Numbers up to 20"
        demoQuestion "12") "evaluate:12" demoQuestion rfl rfl⟩

/-- The performance invariant: correct answers never exceed questions. -/
def scoreInv (s : TutorState) : Prop :=
  s.correct_answers ≤ s.total_questions

/-- C5: every node of TutorGraph preserves `correct_answers <=
total_questions`; a successful `_evaluate_answer` increments
`total_questions` by exactly 1, increments `correct_answers` exactly when
the evaluation is correct, and appends exactly one response record; the
public `generate_learning_plan` establishes the invariant by setting
`total_questions = len(responses)` and `correct_answers` to the count of
responses marked correct. -/
theorem score_invariant_preserved :
    (∀ s, scoreInv s → scoreInv (routeRequest s))
    ∧ (∀ llm s, scoreInv s → scoreInv (generateQuestion llm s))
    ∧ (∀ llm s, scoreInv s → scoreInv (validateQuestion llm s))
    ∧ (∀ llm s, scoreInv s → scoreInv (evaluateAnswer llm s))
    ∧ (∀ llm s, scoreInv s → scoreInv (createExplanation llm s))
    ∧ (∀ llm s, scoreInv s → scoreInv (generateLearningPlan llm s))
    ∧ (∀ s, scoreInv s → scoreInv (handleError s))
    ∧ (∀ (ev : EvaluationResult) (s : TutorState) (last : String)
         (q : QuestionContent), s.messages.getLast? = some last →
        evalResolveQuestion s = Except.ok (some q) →
        (evaluateAnswer (some ev) s).total_questions = s.total_questions + 1
        ∧ (evaluateAnswer (some ev) s).correct_answers =
            s.correct_answers + (if ev.is_correct then 1 else 0)
        ∧ (evaluateAnswer (some ev) s).student_responses =
            s.student_responses ++
              [⟨q.question, pyStrip (pyReplace last "evaluate:" ""),
                ev.is_correct, ev.feedback, ev.score⟩])
    ∧ (∀ subject grade topic subtopic responses,
        (generate_learning_plan_init subject grade topic subtopic
            responses).total_questions = responses.length
        ∧ (generate_learning_plan_init subject grade topic subtopic
            responses).correct_answers = responses.countP (fun r => r.is_correct)
        ∧ scoreInv (generate_learning_plan_init subject grade topic subtopic
            responses)) := by
  refine ⟨?_, ?_, ?_, ?_, ?_, ?_, ?_, ?_, ?_⟩
  · intro s h
    unfold scoreInv routeRequest routeRequestT at *
    by_cases hm : s.messages.isEmpty <;> simp [hm] <;> exact h
  · intro llm s h
    cases llm <;> exact h
  · intro llm s h
    unfold scoreInv at *
    cases hq : s.current_question with
    | none => cases llm <;> simp [validateQuestion, validateQuestionT, hq] <;> exact h
    | some q =>
        cases llm with
        | none => simp [validateQuestion, validateQuestionT, hq]; exact h
        | some v =>
            simp only [validateQuestion, validateQuestionT, hq]
            by_cases hbr : v.is_valid = false ∧ s.retry_count < 3
            · rw [if_pos hbr]; exact h
            · rw [if_neg hbr]; exact h
  · intro llm s h
    unfold scoreInv at *
    cases hlast : s.messages.getLast? with
    | none => simp [evaluateAnswer, evaluateAnswerT, hlast]; exact h
    | some last =>
        cases hres : evalResolveQuestion s with
        | error e => simp [evaluateAnswer, evaluateAnswerT, hlast, hres]; exact h
        | ok oq =>
            cases oq with
            | none => simp [evaluateAnswer, evaluateAnswerT, hlast, hres]; exact h
            | some q =>
                cases llm with
                | none => simp [evaluateAnswer, evaluateAnswerT, hlast, hres]; exact h
                | some ev =>
                    simp [evaluateAnswer, evaluateAnswerT, hlast, hres]
                    by_cases hc : ev.is_correct <;> simp [hc] <;> omega
  · intro llm s h
    cases llm <;> exact h
  · intro llm s h
    unfold scoreInv at *
    have hp := planAccuracy_isSome s.correct_answers s.total_questions
    cases hacc : planAccuracy s.correct_answers s.total_questions with
    | none => rw [hacc] at hp; simp at hp
    | some a =>
        cases llm <;> simp [generateLearningPlan, generateLearningPlanT, hacc] <;> exact h
  · intro s h
    exact h
  · intro ev s last q hlast hres
    refine ⟨?_, ?_, ?_⟩ <;>
      simp [evaluateAnswer, evaluateAnswerT, hlast, hres]
  · intro subject grade topic subtopic responses
    refine ⟨rfl, rfl, ?_⟩
    unfold scoreInv generate_learning_plan_init
    simpa using List.countP_le_length (fun (r : ResponseRecord) => r.is_correct)

theorem score_invariant_preserved_witness :
    ((evaluateAnswer (some demoEvaluation)
        (evaluate_answer_init "Mathematics" "1" "Numbers" "Numbers up to 20"
          demoQuestion "12")).total_questions = 0 + 1)
    ∧ scoreInv (validateQuestion (some demoValidation) demoValidatingState) :=
  ⟨(score_invariant_preserved.2.2.2.2.2.2.2.1 demoEvaluation
      (evaluate_answer_init "Mathematics" "1" "Numbers" "Numbers up to 20"
        demoQuestion "12") "evaluate:12" demoQuestion rfl rfl).1,
   score_invariant_preserved.2.2.1 (some demoValidation) demoValidatingState
     (by unfold scoreInv; decide)⟩

lemma guardedAccuracy_isSome (correct total : Nat) :
    ((if total > 0 then
        (pyDiv (correct : ℚ) (total : ℚ)).map (fun x => x * 100)
      else some (0 : ℚ))).isSome = true := by
  by_cases ht : total > 0
  · have hz : ((total : ℚ) = 0) = False := by
      simp only [Nat.cast_eq_zero, eq_iff_iff, iff_false]
      omega
    simp [ht, pyDiv, hz]
  · simp [ht]

/-- C6: every accuracy computation guards the division by `total > 0` and
yields 0 otherwise, so no division by zero (`none` of `pyDiv`) is
reachable in `_generate_learning_plan`, `get_practice_summary`,
`_generate_assessment_report` or `get_student_progress`, including on zero
questions attempted. -/
theorem accuracy_division_safe :
    (∀ correct total, (planAccuracy correct total).isSome = true)
    ∧ (∀ correct, planAccuracy correct 0 = some 0)
    ∧ (∀ responses, (practiceSummaryAccuracy responses).isSome = true)
    ∧ practiceSummaryAccuracy [] = some 0
    ∧ (∀ responses, (assessmentReportAccuracy responses).isSome = true)
    ∧ assessmentReportAccuracy [] = some 0
    ∧ (∀ recent_sessions,
        (studentProgressAccuracy recent_sessions).isSome = true)
    ∧ studentProgressAccuracy [] = some 0
    ∧ (∀ rows : List SessionRow,
        (rows.map (fun r => r.questions_attempted)).sum = 0 →
        studentProgressAccuracy rows = some 0) := by
  refine ⟨planAccuracy_isSome, fun correct => rfl, ?_, rfl, ?_, rfl, ?_, rfl, ?_⟩
  · intro responses
    exact guardedAccuracy_isSome (responses.countP (fun r => r.is_correct))
      responses.length
  · intro responses
    exact guardedAccuracy_isSome (responses.countP (fun r => r.is_correct))
      responses.length
  · intro recent_sessions
    unfold studentProgressAccuracy
    exact guardedAccuracy_isSome
      ((recent_sessions.map (fun s => s.questions_correct)).sum)
      ((recent_sessions.map (fun s => s.questions_attempted)).sum)
  · intro rows hz
    unfold studentProgressAccuracy
    simp only [hz]
    simp

theorem accuracy_division_safe_witness :
    studentProgressAccuracy [⟨0, 0⟩, ⟨0, 0⟩] = some 0 :=
  accuracy_division_safe.2.2.2.2.2.2.2.2 [⟨0, 0⟩, ⟨0, 0⟩] (by decide)

lemma lookup_dictInsert {α : Type} :
    ∀ (l : List (String × α)) (k : String) (v : α),
      lookupStr k (dictInsert l k v) = some v := by
  intro l
  induction l with
  | nil => intro k v; simp [dictInsert, lookupStr]
  | cons hd rest ih =>
      intro k v
      rcases hd with ⟨key, w⟩
      by_cases hk : key = k
      · simp [dictInsert, hk, lookupStr]
      · have hk2 : ¬ k = key := fun h => hk h.symm
        simp [dictInsert, hk, lookupStr, hk2, ih]

/-- C7: `text_to_speech` never propagates an exception (its body is total,
all effect failures yielding `none` as the source handler does); it
returns `none` on empty or whitespace-only input and whenever cleaning
empties the text, and any returned path is recorded in the cache under the
MD5-derived key of the cleaned text. -/
theorem tts_text_to_speech_safe :
    ∀ (clean md5hex : String → String) (tempDir : String) (o : TTSOracle)
      (cache : List (String × String)) (text : String),
      (pyStrip text = "" →
        text_to_speech clean md5hex tempDir o cache text = (none, cache))
      ∧ (clean text = "" →
          (text_to_speech clean md5hex tempDir o cache text).1 = none)
      ∧ (∀ p, (text_to_speech clean md5hex tempDir o cache text).1 = some p →
          lookupStr (generate_cache_key clean md5hex (clean text))
            (text_to_speech clean md5hex tempDir o cache text).2 = some p) := by
  intro clean md5hex tempDir o cache text
  refine ⟨?_, ?_, ?_⟩
  · intro hstrip
    have hcond : text = "" ∨ pyStrip text = "" := Or.inr hstrip
    simp [text_to_speech, hcond]
  · intro hclean
    by_cases hcond : text = "" ∨ pyStrip text = ""
    · simp [text_to_speech, hcond]
    · simp [text_to_speech, hcond, hclean]
  · intro p hp
    by_cases hcond : text = "" ∨ pyStrip text = ""
    · simp [text_to_speech, hcond] at hp
    · by_cases hclean : clean text = ""
      · simp [text_to_speech, hcond, hclean] at hp
      · simp only [text_to_speech, if_neg hcond, if_neg hclean] at hp ⊢
        cases hlk : lookupStr (generate_cache_key clean md5hex (clean text)) cache with
        | some cp =>
            by_cases hex : o.cachedFileExists cp
            · simp only [hlk, hex, if_pos rfl] at hp ⊢
              have hpc : cp = p := by simpa using hp
              rw [hpc] at hlk
              simp [hlk]
            · simp only [hlk, hex, Bool.false_eq_true, if_false] at hp ⊢
              by_cases hgen : o.generationOk
              · simp only [hgen, if_pos rfl] at hp ⊢
                have hpath : tempDir ++ "/speech_" ++
                    generate_cache_key clean md5hex (clean text) ++ ".mp3" = p := by
                  simpa using hp
                rw [← hpath]
                exact lookup_dictInsert cache _ _
              · simp only [if_neg hgen] at hp
                simp at hp
        | none =>
            simp only [hlk] at hp ⊢
            by_cases hgen : o.generationOk
            · simp only [hgen, if_pos rfl] at hp ⊢
              have hpath : tempDir ++ "/speech_" ++
                  generate_cache_key clean md5hex (clean text) ++ ".mp3" = p := by
                simpa using hp
              rw [← hpath]
              exact lookup_dictInsert cache _ _
            · simp only [if_neg hgen] at hp
              simp at hp

theorem tts_text_to_speech_safe_witness :
    lookupStr (generate_cache_key (fun t => t) (fun t => t) "hello")
      (text_to_speech (fun t => t) (fun t => t) "/tmp/ai_tutor_audio"
        ⟨fun _ => false, true⟩ [] "hello").2 =
      some "/tmp/ai_tutor_audio/speech_hello.mp3" :=
  (tts_text_to_speech_safe (fun t => t) (fun t => t) "/tmp/ai_tutor_audio"
      ⟨fun _ => false, true⟩ [] "hello").2.2
    "/tmp/ai_tutor_audio/speech_hello.mp3" (by decide)

/-- A sequence of `submit_practice_answer` calls applied to a session. -/
def applyPracticeSteps (steps : List (Option EvaluationResult × String))
    (s : SessionData) : SessionData :=
  steps.foldl (fun acc p => (submit_practice_answer p.1 acc p.2).1) s

lemma submit_practice_answer_difficulty_bounds
    (evaluation : Option EvaluationResult) (s : SessionData) (answer : String)
    (h1 : 1 ≤ s.current_difficulty) (h5 : s.current_difficulty ≤ 5) :
    1 ≤ (submit_practice_answer evaluation s answer).1.current_difficulty
    ∧ (submit_practice_answer evaluation s answer).1.current_difficulty ≤ 5 := by
  unfold submit_practice_answer
  by_cases hg : s.responses.length ≥ s.questions.length
  · rw [if_pos hg]
    exact ⟨h1, h5⟩
  · rw [if_neg hg]
    cases hq : s.questions[s.responses.length]? with
    | none => exact ⟨h1, h5⟩
    | some q =>
        cases evaluation with
        | none => exact ⟨h1, h5⟩
        | some ev =>
            by_cases hc : ev.is_correct <;> (simp [hc]; try omega)

/-- C8: `create_session` initialises `current_difficulty` to 1; every
`submit_practice_answer` keeps it within bounds (on an answered question
it becomes `min(5, d+1)` after a correct answer and `max(1, d-1)` after an
incorrect one, and no path leaves the bounds), so `1 <=
current_difficulty <= 5` in every reachable practice-session state. -/
theorem practice_difficulty_in_bounds :
    (∀ student_name grade subject topic subtopic session_type,
      (create_session student_name grade subject topic subtopic
        session_type).current_difficulty = 1)
    ∧ (∀ (ev : EvaluationResult) (s : SessionData) (answer : String)
         (q : QuestionContent), s.questions[s.responses.length]? = some q →
        (submit_practice_answer (some ev) s answer).1.current_difficulty =
          if ev.is_correct then min 5 (s.current_difficulty + 1)
          else max 1 (s.current_difficulty - 1))
    ∧ (∀ evaluation s answer, 1 ≤ s.current_difficulty →
        s.current_difficulty ≤ 5 →
        1 ≤ (submit_practice_answer evaluation s answer).1.current_difficulty
        ∧ (submit_practice_answer evaluation s answer).1.current_difficulty ≤ 5)
    ∧ (∀ steps student_name grade subject topic subtopic,
        1 ≤ (applyPracticeSteps steps (create_session student_name grade subject
              topic subtopic "practice")).current_difficulty
        ∧ (applyPracticeSteps steps (create_session student_name grade subject
              topic subtopic "practice")).current_difficulty ≤ 5) := by
  refine ⟨fun _ _ _ _ _ _ => rfl, ?_, ?_, ?_⟩
  · intro ev s answer q hq
    have hlt : s.responses.length < s.questions.length := by
      by_contra hge
      push_neg at hge
      rw [List.getElem?_eq_none hge] at hq
      cases hq
    have hg : ¬ s.responses.length ≥ s.questions.length := by omega
    unfold submit_practice_answer
    rw [if_neg hg, hq]
  · exact fun evaluation s answer h1 h5 =>
      submit_practice_answer_difficulty_bounds evaluation s answer h1 h5
  · intro steps student_name grade subject topic subtopic
    have hgen : ∀ (l : List (Option EvaluationResult × String)) (s : SessionData),
        1 ≤ s.current_difficulty → s.current_difficulty ≤ 5 →
        1 ≤ (applyPracticeSteps l s).current_difficulty
        ∧ (applyPracticeSteps l s).current_difficulty ≤ 5 := by
      intro l
      induction l with
      | nil => intro s h1 h5; exact ⟨h1, h5⟩
      | cons hd tl ih =>
          intro s h1 h5
          have hstep := submit_practice_answer_difficulty_bounds hd.1 s hd.2 h1 h5
          exact ih _ hstep.1 hstep.2
    exact hgen steps (create_session student_name grade subject topic subtopic
      "practice") (by rfl) (by show (1 : Nat) ≤ 5; decide)

/-- A practice session with one pending question. -/
def demoPracticeSession : SessionData :=
  { create_session "Asha" "1" "Mathematics" "Number Adventures"
      "Numbers up to 20" "practice" with questions := [demoQuestion] }

theorem practice_difficulty_in_bounds_witness :
    ((submit_practice_answer (some demoEvaluation) demoPracticeSession
        "12").1.current_difficulty =
      if demoEvaluation.is_correct then min 5 (demoPracticeSession.current_difficulty + 1)
      else max 1 (demoPracticeSession.current_difficulty - 1))
    ∧ (1 ≤ (submit_practice_answer none demoPracticeSession "12").1.current_difficulty
       ∧ (submit_practice_answer none demoPracticeSession "12").1.current_difficulty ≤ 5) :=
  ⟨practice_difficulty_in_bounds.2.1 demoEvaluation demoPracticeSession "12"
      demoQuestion (by decide),
   practice_difficulty_in_bounds.2.2.1 none demoPracticeSession "12"
      (by decide) (by decide)⟩

lemma lookupStr_mem {α : Type} :
    ∀ (l : List (String × α)) (k : String) (v : α),
      lookupStr k l = some v → (k, v) ∈ l := by
  intro l
  induction l with
  | nil => intro k v h; cases h
  | cons hd rest ih =>
      intro k v h
      rcases hd with ⟨key, w⟩
      by_cases hk : k = key
      · rw [lookupStr, if_pos hk] at h
        subst hk
        simp only [Option.some_inj] at h
        subst h
        exact List.mem_cons_self _ _
      · rw [lookupStr, if_neg hk] at h
        exact List.mem_cons_of_mem _ (ih k v h)

/-- Bounded check: for every grade of either curriculum, every entry of
the friendly-label dict maps back to its own subtopic list. -/
lemma curriculum_roundtrip_check :
    ∀ c ∈ [MATH_CURRICULUM, ENGLISH_CURRICULUM], ∀ gp ∈ c,
      ∀ p ∈ topicsOfGrade gp.2, subtopicsOfGrade gp.2 p.1 = p.2 := by
  decide

/-- C9: the values of `TOPIC_LABELS` are pairwise distinct; for every
subject and grade, every friendly label of `get_curriculum_topics` maps
back through `get_curriculum_subtopics` to exactly its own subtopic list;
an absent grade yields the empty dict and the empty list. -/
theorem topic_labels_roundtrip :
    ((TOPIC_LABELS.map Prod.snd).Nodup)
    ∧ (∀ subject grade label subtopics,
        lookupStr label (get_curriculum_topics subject grade) = some subtopics →
        get_curriculum_subtopics subject grade label = subtopics)
    ∧ (∀ subject grade, lookupStr grade (curriculumFor subject) = none →
        get_curriculum_topics subject grade = []
        ∧ ∀ topic, get_curriculum_subtopics subject grade topic = []) := by
  refine ⟨by decide, ?_, ?_⟩
  · intro subject grade label subtopics h
    cases hg : lookupStr grade (curriculumFor subject) with
    | none =>
        simp only [get_curriculum_topics, hg] at h
        cases h
    | some gd =>
        simp only [get_curriculum_topics, hg] at h
        have hmem : (label, subtopics) ∈ topicsOfGrade gd :=
          lookupStr_mem _ _ _ h
        have hgm : (grade, gd) ∈ curriculumFor subject :=
          lookupStr_mem _ _ _ hg
        have hcm : curriculumFor subject ∈ [MATH_CURRICULUM, ENGLISH_CURRICULUM] := by
          unfold curriculumFor
          by_cases hs : subject = "Mathematics" <;> simp [hs]
        have hrt := curriculum_roundtrip_check (curriculumFor subject) hcm
          (grade, gd) hgm (label, subtopics) hmem
        simp only [get_curriculum_subtopics, hg]
        exact hrt
  · intro subject grade hg
    refine ⟨?_, ?_⟩
    · simp only [get_curriculum_topics, hg]
    · intro topic
      simp only [get_curriculum_subtopics, hg]

theorem topic_labels_roundtrip_witness :
    get_curriculum_subtopics "Mathematics" "1" "Number Adventures" =
      ["Numbers up to 20", "Addition and Subtraction up to 20",
       "Numbers up to 99", "Simple patterns"] :=
  topic_labels_roundtrip.2.1 "Mathematics" "1" "Number Adventures"
    ["Numbers up to 20", "Addition and Subtraction up to 20",
     "Numbers up to 99", "Simple patterns"] (by decide)

/-- A sample stored response. -/
def demoResponse : ResponseRecord :=
  ⟨"What is 7 + 5?", "12", true, "Well done.", 1⟩

/-- An assessment-session operation: answering or asking for the next
question. -/
inductive AssessOp where
  | submitAns (evaluation : Option EvaluationResult) (answer : String)
  | nextQ (genq : Option QuestionContent) (report : String)

/-- State effect of one assessment operation. -/
def applyAssessOp (s : SessionData) : AssessOp → SessionData
  | AssessOp.submitAns evaluation answer =>
      (submit_assessment_answer evaluation s answer).1
  | AssessOp.nextQ genq report => (get_next_assessment_question genq report s).1

def applyAssessOps (ops : List AssessOp) (s : SessionData) : SessionData :=
  ops.foldl applyAssessOp s

/-- An assessment session whose single question is already answered. -/
def demoAnsweredSession : SessionData :=
  { create_session "Asha" "1" "Mathematics" "Number Adventures"
      "Numbers up to 20" "assessment" with
    questions := [demoQuestion], responses := [demoResponse] }

/-- C10 counterexample: `submit_assessment_answer` on a session whose one
question is already answered returns `can_continue = False` although only
1 < 5 questions are answered, so the continue-flag is not `True` exactly
when the number of answered questions is below 5. -/
theorem assessment_can_continue_counterexample :
    ¬ (((submit_assessment_answer (some demoEvaluation) demoAnsweredSession
          "12").2.2.2 = true) ↔
        ((submit_assessment_answer (some demoEvaluation) demoAnsweredSession
          "12").1.responses.length < questions_per_assessment)) := by
  decide

lemma questions_length_after_next (genq : Option QuestionContent)
    (report : String) (s : SessionData) :
    (get_next_assessment_question genq report s).1.questions.length ≤
      max s.questions.length questions_per_assessment := by
  unfold get_next_assessment_question
  by_cases hg : s.questions.length ≥ questions_per_assessment
  · rw [if_pos hg]
    simp
  · rw [if_neg hg]
    cases genq with
    | none => simp
    | some q =>
        simp only
        have : s.questions.length + 1 ≤ questions_per_assessment := by
          unfold questions_per_assessment at *
          omega
        simp
        omega

/-- C10 amended: an assessment session never holds more than
`questions_per_assessment = 5` questions: `get_next_assessment_question`
appends a question only while the session holds fewer than 5 and otherwise
returns the report with a continue-flag of False, so any sequence of
operations from `start_assessment` keeps at most 5 questions; a
`submit_assessment_answer` call that actually evaluates an answer returns
`can_continue` true exactly when the number of answered questions is below
5, while its no-pending-question path returns False (even below 5 answers)
and its evaluation-failure path returns True. -/
theorem assessment_question_cap :
    (questions_per_assessment = 5)
    ∧ (∀ genq report s, s.questions.length ≥ questions_per_assessment →
        get_next_assessment_question genq report s = (s, report, false))
    ∧ (∀ genq report s, s.questions.length ≤ questions_per_assessment →
        (get_next_assessment_question genq report s).1.questions.length ≤
          questions_per_assessment)
    ∧ (∀ ops genq student_name grade subject topic subtopic,
        (applyAssessOps ops (start_assessment genq student_name grade subject
          topic subtopic)).questions.length ≤ questions_per_assessment)
    ∧ (∀ (ev : EvaluationResult) (s : SessionData) (answer : String)
         (q : QuestionContent), s.questions[s.responses.length]? = some q →
        (submit_assessment_answer (some ev) s answer).2.2.2 =
          decide ((submit_assessment_answer (some ev) s answer).1.responses.length <
            questions_per_assessment))
    ∧ (∀ evaluation s answer, s.questions.length ≤ s.responses.length →
        (submit_assessment_answer evaluation s answer).2.2.2 = false)
    ∧ (∀ (s : SessionData) (answer : String) (q : QuestionContent),
        s.questions[s.responses.length]? = some q →
        (submit_assessment_answer none s answer).2.2.2 = true) := by
  have hsub_len : ∀ evaluation (s : SessionData) answer,
      (submit_assessment_answer evaluation s answer).1.questions =
        s.questions := by
    intro evaluation s answer
    unfold submit_assessment_answer
    by_cases hg : s.responses.length ≥ s.questions.length
    · rw [if_pos hg]
    · rw [if_neg hg]
      cases hq : s.questions[s.responses.length]? with
      | none => rfl
      | some q => cases evaluation <;> rfl
  refine ⟨rfl, ?_, ?_, ?_, ?_, ?_, ?_⟩
  · intro genq report s hg
    unfold get_next_assessment_question
    rw [if_pos hg]
  · intro genq report s hle
    have := questions_length_after_next genq report s
    omega
  · intro ops genq student_name grade subject topic subtopic
    have hstart : (start_assessment genq student_name grade subject topic
        subtopic).questions.length ≤ questions_per_assessment := by
      unfold start_assessment create_session
      cases genq <;> simp [questions_per_assessment]
    have hgen : ∀ (l : List AssessOp) (s : SessionData),
        s.questions.length ≤ questions_per_assessment →
        (applyAssessOps l s).questions.length ≤ questions_per_assessment := by
      intro l
      induction l with
      | nil => intro s h; exact h
      | cons hd tl ih =>
          intro s h
          refine ih _ ?_
          cases hd with
          | submitAns evaluation answer =>
              show ((submit_assessment_answer evaluation s answer).1).questions.length ≤ _
              rw [hsub_len]
              exact h
          | nextQ g r =>
              show ((get_next_assessment_question g r s).1).questions.length ≤ _
              have := questions_length_after_next g r s
              omega
    exact hgen ops _ hstart
  · intro ev s answer q hq
    have hlt : s.responses.length < s.questions.length := by
      by_contra hge
      push_neg at hge
      rw [List.getElem?_eq_none hge] at hq
      cases hq
    have hg : ¬ s.responses.length ≥ s.questions.length := by omega
    unfold submit_assessment_answer
    rw [if_neg hg, hq]
  · intro evaluation s answer hge
    unfold submit_assessment_answer
    rw [if_pos (by omega : s.responses.length ≥ s.questions.length)]
  · intro s answer q hq
    have hlt : s.responses.length < s.questions.length := by
      by_contra hge
      push_neg at hge
      rw [List.getElem?_eq_none hge] at hq
      cases hq
    have hg : ¬ s.responses.length ≥ s.questions.length := by omega
    unfold submit_assessment_answer
    rw [if_neg hg, hq]

/-- An assessment session already holding five questions. -/
def demoAnsweredSession5 : SessionData :=
  { create_session "Asha" "1" "Mathematics" "Number Adventures"
      "Numbers up to 20" "assessment" with
    questions := [demoQuestion, demoQuestion, demoQuestion, demoQuestion,
      demoQuestion] }

/-- A fresh assessment session with one pending, unanswered question. -/
def demoAssessSession : SessionData :=
  { create_session "Asha" "1" "Mathematics" "Number Adventures"
      "Numbers up to 20" "assessment" with questions := [demoQuestion] }

theorem assessment_question_cap_witness :
    ((submit_assessment_answer (some demoEvaluation) demoAssessSession
        "12").2.2.2 =
      decide ((submit_assessment_answer (some demoEvaluation) demoAssessSession
        "12").1.responses.length < questions_per_assessment))
    ∧ get_next_assessment_question (some demoQuestion) "report"
        demoAnsweredSession5 = (demoAnsweredSession5, "report", false) :=
  ⟨assessment_question_cap.2.2.2.2.1 demoEvaluation demoAssessSession "12"
      demoQuestion (by decide),
   assessment_question_cap.2.1 (some demoQuestion) "report"
      demoAnsweredSession5 (by decide)⟩
